import Mathlib

/-!
Verification development for the `ytpipelinev3Stem` repository.

The repository has three Python source files:
  * `stem_separator.py` — `AudioShakeSeparator`, a client for a remote
    job-based stem-separation API (authenticate, upload, poll, download);
  * `downloader.py` — `get_download_url`, a headless-browser link resolver,
    and `stream_download`, a chunked HTTP byte streamer;
  * `api_server.py` — the Flask HTTP boundary (out of scope here).

Each Python function used by the claims is shallowly embedded below as a
pure Lean function.  External effects (HTTP responses, browser state,
filesystem writes) are passed in explicitly as oracle parameters, and the
Python control flow — including swallowed exceptions and Python
truthiness — is reproduced faithfully.
-/

/-! ## Python string primitives

Python `in` (substring test), `startswith`, `len` and `.lower()` on `str`,
and the truthiness rules used by the code (`None` and `''` are falsy).
-/

/-- `headMatches n h` is Python `h.startswith(n)` at the char-list level. -/
def headMatches : List Char → List Char → Bool
  | [], _ => true
  | _ :: _, [] => false
  | c :: cs, d :: ds => c == d && headMatches cs ds

/-- `hasSubstr n h` is Python `n in h` at the char-list level. -/
def hasSubstr (needle : List Char) : List Char → Bool
  | [] => headMatches needle []
  | d :: ds => headMatches needle (d :: ds) || hasSubstr needle ds

/-- Python `pat in hay` for strings. -/
def strContains (hay pat : String) : Bool := hasSubstr pat.data hay.data

/-- Python `hay.startswith(pat)`. -/
def strStartsWith (hay pat : String) : Bool := headMatches pat.data hay.data

/-- Python `s.lower()`.  The statuses, URLs and extensions this code
lowercases are ASCII, where `Char.toLower` agrees with Python. -/
def pyLower (s : String) : String := ⟨s.data.map Char.toLower⟩

/-- Python truthiness of an optional string: `None` and `''` are falsy. -/
def pyTruthy : Option String → Bool
  | none => false
  | some s => s ≠ ""

/-- Python `a or b` on optional strings (falsy `a` falls through to `b`). -/
def pyOr (a b : Option String) : Option String := if pyTruthy a then a else b

/-! ## `stem_separator.py` — data model

A task-status dictionary as read by the client.  The client only ever
reads the keys `status`, `message`, `stems` and `download_urls`
(`dict.get` with a default), so the embedding records exactly those.
A missing or non-`dict` `stems` value behaves identically to `{}` in
`download_stems` (the `isinstance` guard skips the loop), so `stems` is
a (possibly empty) association list; likewise `download_urls`.
-/

/-- The value attached to one stem name inside `task_info['stems']`:
a nested dict (only its `url` / `download_url` keys are read), a plain
string, or anything else (skipped by `continue`). -/
inductive StemInfo where
  | dict (url download_url : Option String)
  | str (s : String)
  | other
deriving DecidableEq, Repr

/-- A task dictionary as consumed by `AudioShakeSeparator`. -/
structure TaskDict where
  status : Option String
  message : Option String
  stems : List (String × StemInfo) := []
  download_urls : List (String × String) := []
deriving DecidableEq, Repr

/-- `task_info.get('status', 'unknown').lower()` (line 173 of
`stem_separator.py`). -/
def lowerStatus (d : TaskDict) : String := pyLower (d.status.getD "unknown")

/-- The completed-synonym list of `wait_for_completion` (line 177). -/
def completedSet : List String := ["completed", "done", "success"]

/-- The failed-synonym list of `wait_for_completion` (line 179). -/
def failedSet : List String := ["failed", "error"]

/-- A poll result is terminal when its lowercased status is in either
synonym set. -/
def isTerminal (d : TaskDict) : Bool :=
  completedSet.contains (lowerStatus d) || failedSet.contains (lowerStatus d)

/-- The dictionary returned on deadline expiry (line 186). -/
def timeoutDict : TaskDict :=
  { status := some "timeout", message := some "Task did not complete in time" }

/-! ## `check_task_status`

`check_task_status` re-authenticates lazily; a missing token with failed
authentication yields `{'status': 'error', 'message': 'Authentication
failed'}`.  A `requests` failure on the GET yields `{'status': 'error',
'message': str(e)}`; otherwise the response JSON is returned unchanged.
`tokenOk` abbreviates "an access token is cached, or `authenticate()`
succeeds"; `resp` is the outcome of the HTTP GET. -/
def check_task_status (tokenOk : Bool) (resp : Except String TaskDict) : TaskDict :=
  if !tokenOk then { status := some "error", message := some "Authentication failed" }
  else
    match resp with
    | .ok d => d
    | .error e => { status := some "error", message := some e }

/-! ## `wait_for_completion`

The Python loop is `while time.time() - start_time < max_wait_time`,
with one status fetch and one `sleep(poll_interval)` per iteration.  The
embedding idealises time: after `i` iterations, `i * poll_interval`
seconds have elapsed, so iteration `i` runs iff `i * pollI < maxW`.
`check i` is the status dictionary produced by the `i`-th poll
(the composition of `check_task_status` with the `i`-th HTTP outcome). -/
def waitFrom (check : Nat → TaskDict) (maxW pollI : Nat) (hp : 0 < pollI)
    (i : Nat) : TaskDict :=
  if h : i * pollI < maxW then
    let s := check i
    let ts := lowerStatus s
    if completedSet.contains ts then s
    else if failedSet.contains ts then s
    else waitFrom check maxW pollI hp (i + 1)
  else timeoutDict
termination_by maxW - i * pollI
decreasing_by rw [Nat.succ_mul]; omega

/-- `wait_for_completion(task_id, max_wait_time, poll_interval)`:
poll from elapsed time zero. -/
def wait_for_completion (check : Nat → TaskDict) (maxW pollI : Nat)
    (hp : 0 < pollI) : TaskDict :=
  waitFrom check maxW pollI hp 0

/-- Convenience proof that the default poll interval is positive. -/
theorem five_pos : 0 < 5 := Nat.succ_pos 4

/-! ## `upload_audio`

Lazily authenticates (`tokenOk` as above), multipart-POSTs the file, and
reads `task_id` (falling back to `id`) from the response JSON.  Any
`requests` failure, and a missing/falsy task id, yield `None`. -/

/-- The fields of the upload response JSON that `upload_audio` reads. -/
structure UploadResp where
  task_id : Option String
  id : Option String
deriving DecidableEq, Repr

/-- `upload_audio`: `None` on auth failure, request failure, or missing
task id; otherwise the (truthy) task id. -/
def upload_audio (tokenOk : Bool) (resp : Except String UploadResp) :
    Option String :=
  if !tokenOk then none
  else
    match resp with
    | .error _ => none
    | .ok r =>
      let tid := pyOr r.task_id r.id
      if pyTruthy tid then tid else none

/-! ## `download_stems`

Given the (re-fetched) task dictionary, the function returns the mapping
`stem_name -> {output_dir}/{stem_name}.wav`.  `_download_file` streams a
GET to the path and returns `False` on any failure — but `download_stems`
IGNORES that boolean and records the entry unconditionally.  The oracle
`dl : String → Bool` tells whether the GET for a URL succeeds; the second
component of the result collects the paths actually written (a file is
created only after `raise_for_status` passes, i.e. when `dl url = true`).
The status gate at line 210 compares `task_info.get('status')` WITHOUT
lowercasing. -/

/-- The effective download URL of one stem entry, after the
`url`/`download_url` fallback and the Python `if download_url:` truthiness
gate (lines 219–226). -/
def stemUrl : StemInfo → Option String
  | .dict u d => let r := pyOr u d; if pyTruthy r then r else none
  | .str s => if s ≠ "" then some s else none
  | .other => none

/-- One pass of the primary stems loop (lines 217–229): the accumulated
`(stem_files, files written)` pair after processing one `(name, info)`
entry. -/
def stemsStep (dl : String → Bool) (output_dir : String)
    (acc : List (String × String) × List String) (p : String × StemInfo) :
    List (String × String) × List String :=
  match stemUrl p.2 with
  | none => acc
  | some url =>
    let path := output_dir ++ "/" ++ p.1 ++ ".wav"
    (acc.1 ++ [(p.1, path)], if dl url then acc.2 ++ [path] else acc.2)

/-- One pass of the `download_urls` fallback loop (lines 232–237): here
the URL is used without a truthiness gate. -/
def urlsStep (dl : String → Bool) (output_dir : String)
    (acc : List (String × String) × List String) (p : String × String) :
    List (String × String) × List String :=
  let path := output_dir ++ "/" ++ p.1 ++ ".wav"
  (acc.1 ++ [(p.1, path)], if dl p.2 then acc.2 ++ [path] else acc.2)

/-- `download_stems(task_id, output_dir)`.  `task_info` is the result of
the internal `check_task_status` call.  Returns the stem-file mapping and
the list of paths actually written to disk. -/
def download_stems (tokenOk : Bool) (dl : String → Bool) (task_info : TaskDict)
    (output_dir : String) : List (String × String) × List String :=
  if !tokenOk then ([], [])
  else if !(match task_info.status with
            | some s => completedSet.contains s
            | none => false) then ([], [])
  else
    let r1 := task_info.stems.foldl (stemsStep dl output_dir) ([], [])
    if r1.1.isEmpty then
      task_info.download_urls.foldl (urlsStep dl output_dir) r1
    else r1

/-! ## `separate_audio`

Upload, poll with the default arguments (`max_wait_time=600`,
`poll_interval=5`), gate on the final status (again WITHOUT lowercasing,
line 286), then download.  `finalInfo` is the task dictionary returned by
the fresh `check_task_status` call inside `download_stems`. -/

/-- `final_status.get('status') in ['completed', 'done', 'success']`
(the case-sensitive gate of lines 210 and 286). -/
def statusInCompleted (d : TaskDict) : Bool :=
  match d.status with
  | some s => completedSet.contains s
  | none => false

/-- `separate_audio(audio_file_path, output_dir)`: the returned
stem-file mapping (empty on any failure). -/
def separate_audio (tokenOk : Bool) (uploadResp : Except String UploadResp)
    (check : Nat → TaskDict) (finalInfo : TaskDict) (dl : String → Bool)
    (output_dir : String) : List (String × String) :=
  match upload_audio tokenOk uploadResp with
  | none => []
  | some _ =>
    let final := wait_for_completion check 600 5 five_pos
    if !statusInCompleted final then []
    else (download_stems tokenOk dl finalInfo output_dir).1

/-! ## `downloader.py` — `get_download_url`

The resolver drives a headless browser.  Browser observations are passed
in as an environment: the outcome of each candidate click in step 5, the
candidate attribute strings of the elements scanned in step 6, the
`re.findall` results of the step-7 page-source patterns (in pattern
order), and the browser's final `current_url` for step 8.  Regular
expressions over the uncontrolled page are abstracted as oracle results;
every filter, priority chain and control-flow decision of the Python code
is embedded exactly, including Python local-variable scoping: a local is
`none` (unbound) until assigned, and reading an unbound local raises
`UnboundLocalError`, which the surrounding handlers of the source swallow.
-/

/-- The only exception kind the embedding needs to distinguish:
Python's `UnboundLocalError` from reading a local before assignment. -/
inductive PyExc where
  | unboundLocal
deriving DecidableEq, Repr

/-- What one click on a candidate element does (lines 167–189): whether
the element was displayed and enabled, the browser URL after the click,
and the result of the `re.search` for a direct media URL over the new
page source when the URL changed. -/
structure Click where
  enabledDisplayed : Bool
  newUrl : String
  directUrl : Option String
deriving DecidableEq, Repr

/-- `any(ext in u.lower() for ext in exts)`. -/
def anyExtIn (u : String) (exts : List String) : Bool :=
  exts.any (fun e => strContains (pyLower u) e)

/-- The extension list of the click-redirect check (line 178). -/
def clickExts : List String := [".mp4", ".mp3", ".wav", ".m4a", ".webm"]

/-- The conditional-expression chain of line 180
(`'wav' if ... else 'mp3' if ... else 'mp4'`). -/
def clickFormatExt (u : String) : String :=
  if strContains (pyLower u) ".wav" then "wav"
  else if strContains (pyLower u) ".mp3" then "mp3"
  else "mp4"

/-- The conditional expression of line 189
(`'wav' if ... else 'mp3'`). -/
def directFormatExt (u : String) : String :=
  if strContains (pyLower u) ".wav" then "wav" else "mp3"

/-- Control outcome of one button iteration. -/
inductive BtnCtl where
  | ret (r : String × Option String × String)
  | brk
  | cont
deriving Repr

/-- The `try` body of one button iteration (lines 167–190).  `cur` is
`current_url` from line 136; `vt` and `du` are the bindings of the Python
locals `video_title` and `download_url` (`none` = unbound).  Returns the
updated `download_url` binding and either a control outcome or a raised
exception. -/
def btnTry (cur : String) (vt : Option (Option String)) (du : Option String)
    (c : Click) : Option String × Except PyExc BtnCtl :=
  if !c.enabledDisplayed then (du, .ok .cont)
  else
    let new_url := c.newUrl
    if new_url ≠ cur then
      if anyExtIn new_url clickExts then
        -- line 181: `return new_url, video_title, format_ext`
        match vt with
        | none => (du, .error .unboundLocal)
        | some v => (du, .ok (.ret (new_url, v, clickFormatExt new_url)))
      else
        match c.directUrl with
        | some d =>
          -- line 187: `download_url = direct_url.group(0)`; then line 189
          -- `return download_url, video_title, ...`
          match vt with
          | none => (some d, .error .unboundLocal)
          | some v => (some d, .ok (.ret (d, v, directFormatExt d)))
        | none => (du, .ok .brk)
    else (du, .ok .cont)

/-- One button iteration with its `except Exception: continue` handler
(lines 191–193). -/
def btnStep (cur : String) (vt : Option (Option String)) (du : Option String)
    (c : Click) : Option String × BtnCtl :=
  match btnTry cur vt du c with
  | (du2, .ok r) => (du2, r)
  | (du2, .error _) => (du2, .cont)

/-- The `for btn in buttons[:5]` loop body over an already-truncated
click list: final `download_url` binding, plus an early return if one
occurred. -/
def btnLoop (cur : String) (vt : Option (Option String)) :
    Option String → List Click →
    Option String × Option (String × Option String × String)
  | du, [] => (du, none)
  | du, c :: cs =>
    match btnStep cur vt du c with
    | (du2, .ret r) => (du2, some r)
    | (du2, .brk) => (du2, none)
    | (du2, .cont) => btnLoop cur vt du2 cs

/-- Control outcome of one selector-strategy iteration. -/
inductive SelCtl where
  | ret (r : String × Option String × String)
  | stop
  | next
deriving Repr

/-- The `try` body of one selector strategy (lines 164–195): run the
button loop on the first five candidates, then evaluate line 194's
`if download_url:` — which raises `UnboundLocalError` when no button
iteration ever assigned `download_url`. -/
def selTry (cur : String) (vt : Option (Option String)) (du : Option String)
    (clicks : List Click) : Option String × Except PyExc SelCtl :=
  match btnLoop cur vt du (clicks.take 5) with
  | (du2, some r) => (du2, .ok (.ret r))
  | (du2, none) =>
    match du2 with
    | none => (none, .error .unboundLocal)
    | some s => if s ≠ "" then (some s, .ok .stop) else (some s, .ok .next)

/-- One selector strategy with its bare `except: continue` handler
(lines 196–197). -/
def selStep (cur : String) (vt : Option (Option String)) (du : Option String)
    (clicks : List Click) : Option String × SelCtl :=
  match selTry cur vt du clicks with
  | (du2, .ok r) => (du2, r)
  | (du2, .error _) => (du2, .next)

/-- Step 5 (lines 147–199): the `for by, selector in format_selectors`
loop.  Returns the final `download_url` binding and an early return if
one occurred. -/
def step5 (cur : String) (vt : Option (Option String)) :
    Option String → List (List Click) →
    Option String × Option (String × Option String × String)
  | du, [] => (du, none)
  | du, g :: gs =>
    match selStep cur vt du g with
    | (du2, .ret r) => (du2, some r)
    | (du2, .stop) => (du2, none)
    | (du2, .next) => step5 cur vt du2 gs

/-- One element of the step-6 scan: the result of the attribute chain
`get_attribute('href') or get_attribute('onclick') or
get_attribute('data-url')`, and the result of the `re.search` URL
extraction applied when the attribute string contains `onclick`. -/
structure Elem where
  attr : Option String
  extracted : Option String
deriving DecidableEq, Repr

/-- Lines 226–233: the candidate string for one element, `none` when the
`if href:` truthiness gate fails. -/
def elemCandidate (e : Elem) : Option String :=
  match e.attr with
  | none => none
  | some a =>
    if a = "" then none
    else if strContains a "onclick" then
      match e.extracted with
      | some u => some u
      | none => some a
    else some a

/-- The extension list of the validity filters (lines 240 and 300). -/
def validExts : List String := [".mp4", ".mp3", ".webm", ".m4a", ".wav", ".flac"]

/-- The element validity filter of lines 236–242. -/
def is_valid6 (href : String) : Bool :=
  href ≠ "" && strStartsWith href "http" && href.length > 40 &&
  !strContains href "y2down.cc/en" && href ≠ "y2down.cc/" &&
  (anyExtIn href validExts ||
   (strContains (pyLower href) "download" &&
    (strContains (pyLower href) "api" || strContains (pyLower href) "cdn" ||
     strContains (pyLower href) "storage" || strContains (pyLower href) "get") &&
    href.length > 50))

/-- Step 6 (lines 207–261): first element candidate passing the filter.
The per-selector loops with their `break`s visit candidates in flattened
encounter order. -/
def scanElems : List Elem → Option String
  | [] => none
  | e :: es =>
    match elemCandidate e with
    | some c => if is_valid6 c then some c else scanElems es
    | none => scanElems es

/-- The page-source match filter of lines 296–301. -/
def is_valid7 (m : String) : Bool :=
  m ≠ "" && m.length > 40 &&
  !strContains m "y2down.cc/en" && m ≠ "y2down.cc/" &&
  !strContains m ".xml" &&
  (anyExtIn m validExts ||
   (strContains (pyLower m) "download" &&
    (strContains (pyLower m) "api" || strContains (pyLower m) "get") &&
    m.length > 50))

/-- Step 7 (lines 284–316): first `re.findall` match (in pattern order)
passing the filter. -/
def scanSource : List String → Option String
  | [] => none
  | m :: ms => if is_valid7 m then some m else scanSource ms

/-- The `if/elif` format chain of lines 245–254 and 303–312, applied to
the URL that was just assigned to `download_url`; when no branch matches,
`file_format` keeps its initial value `'mp4'` from line 205. -/
def inferFormat (u : String) : String :=
  if strContains (pyLower u) ".mp4" then "mp4"
  else if strContains (pyLower u) ".mp3" then "mp3"
  else if strContains (pyLower u) ".wav" then "wav"
  else if strContains (pyLower u) ".m4a" then "m4a"
  else if strContains (pyLower u) ".webm" then "webm"
  else "mp4"

/-- The extension list of the step-8 current-URL check (line 328). -/
def step8Exts : List String := [".mp4", ".mp3", ".webm", ".wav", ".m4a"]

/-- The fixed conversion-page URL (line 28). -/
def y2downBase : String := "https://y2down.cc/enV8/youtube-wav"

/-- The browser observations one resolution attempt depends on. -/
structure ResolveEnv where
  launchOk : Bool
  inputFound : Bool
  currentUrl : String
  clicks : List (List Click)
  elems : List Elem
  sourceMatches : List String
  finalUrl : Option String

/-- `get_download_url(youtube_url)`.  The result triple is
`(download_url, video_title, file_format)`.  Failure to start the
browser (line 85), failure to locate the input field (line 112), and the
enclosing `except Exception` handler (line 339) all return
`(None, None, None)`.  After step 5, lines 203–205 assign
`download_url = None`, `video_title = None`, `file_format = 'mp4'`;
`file_format` is only ever reassigned immediately before the return of
line 319, so the step-8 return of line 330 always carries the initial
`'mp4'`. -/
def get_download_url (env : ResolveEnv) :
    Option String × Option String × Option String :=
  if !env.launchOk then (none, none, none)
  else if !env.inputFound then (none, none, none)
  else
    match step5 env.currentUrl none none env.clicks with
    | (_, some (u, t, f)) => (some u, t, some f)
    | (_, none) =>
      let video_title : Option String := none
      match scanElems env.elems with
      | some u => (some u, video_title, some (inferFormat u))
      | none =>
        match scanSource env.sourceMatches with
        | some u => (some u, video_title, some (inferFormat u))
        | none =>
          match env.finalUrl with
          | some cu =>
            if cu ≠ y2downBase && !strContains cu "y2down.cc/en" &&
               anyExtIn cu step8Exts then
              (some cu, video_title, some "mp4")
            else (none, video_title, none)
          | none => (none, video_title, none)

/-! ## `downloader.py` — `stream_download`

A generator: a GET with `stream=True`, `raise_for_status`, then
`yield chunk` for each non-empty chunk of `iter_content`.  The `requests`
library's `raise_for_status` raises `HTTPError` exactly for status codes
in `[400, 600)`.  The embedding returns the produced chunk sequence
together with the error, if any, that terminated the generator:
`resp = none` models the GET itself raising. -/

/-- Failure modes of the streamer. -/
inductive StreamErr where
  | requestError
  | httpError
deriving DecidableEq, Repr

/-- The HTTP response as the streamer observes it: final status code and
the body chunks that `iter_content` would produce. -/
structure HttpResp where
  statusCode : Nat
  chunks : List (List UInt8)
deriving DecidableEq, Repr

/-- `requests.Response.raise_for_status` raises iff the status code is a
4xx or 5xx. -/
def raisesForStatus (code : Nat) : Bool := 400 ≤ code && code < 600

/-- `stream_download(download_url, chunk_size)`: the chunks yielded, and
the error (re-raised by the `except` handler of line 365) if one
occurred.  Chunks that are empty (`if chunk:`) are skipped. -/
def stream_download (resp : Option HttpResp) :
    List (List UInt8) × Option StreamErr :=
  match resp with
  | none => ([], some .requestError)
  | some r =>
    if raisesForStatus r.statusCode then ([], some .httpError)
    else (r.chunks.filter (fun c => c ≠ []), none)

/-! ## Poll-loop lemmas -/

/-- If no poll that happens before the deadline is terminal, the loop
runs out the clock and returns the timeout dictionary. -/
theorem waitFrom_timeout (check : Nat → TaskDict) (maxW pollI : Nat) (hp : 0 < pollI) :
    ∀ n j, maxW - j * pollI ≤ n →
      (∀ i, j ≤ i → i * pollI < maxW → isTerminal (check i) = false) →
      waitFrom check maxW pollI hp j = timeoutDict := by
  intro n
  induction n with
  | zero =>
    intro j hle _
    rw [waitFrom]
    have : ¬ j * pollI < maxW := by omega
    simp [this]
  | succ n ih =>
    intro j hle hnt
    rw [waitFrom]
    by_cases h : j * pollI < maxW
    · have ht := hnt j le_rfl h
      unfold isTerminal at ht
      simp only [Bool.or_eq_false_iff] at ht
      simp only [h, dif_pos, ht.1, ht.2, if_neg, Bool.false_eq_true, not_false_iff]
      apply ih
      · have : j * pollI + pollI = (j + 1) * pollI := (Nat.succ_mul j pollI).symm
        omega
      · intro i hi hlt
        exact hnt i (by omega) hlt
    · simp [h]

/-- The loop returns the dictionary of the first terminal poll, provided
that poll happens before the deadline. -/
theorem waitFrom_first (check : Nat → TaskDict) (maxW pollI : Nat) (hp : 0 < pollI) :
    ∀ d j k, k = j + d → k * pollI < maxW → isTerminal (check k) = true →
      (∀ i, j ≤ i → i < k → isTerminal (check i) = false) →
      waitFrom check maxW pollI hp j = check k := by
  intro d
  induction d with
  | zero =>
    intro j k hk hlt hterm _
    have hkj : k = j := by omega
    subst hkj
    rw [waitFrom]
    simp only [hlt, dif_pos]
    unfold isTerminal at hterm
    by_cases hc : completedSet.contains (lowerStatus (check k)) = true
    · rw [if_pos hc]
    · rw [if_neg hc]
      rcases Bool.or_eq_true_iff.mp hterm with h | h
      · exact absurd h hc
      · rw [if_pos h]
  | succ d ih =>
    intro j k hk hlt hterm hbefore
    have hjlt : j * pollI < maxW := by
      have h1 : j ≤ k := by omega
      have := Nat.mul_le_mul_right pollI h1
      omega
    rw [waitFrom]
    have hnt := hbefore j le_rfl (by omega)
    unfold isTerminal at hnt
    simp only [Bool.or_eq_false_iff] at hnt
    simp only [hjlt, dif_pos, hnt.1, hnt.2, if_neg, Bool.false_eq_true, not_false_iff]
    apply ih (j + 1) k (by omega) hlt hterm
    intro i hi hik
    exact hbefore i (by omega) hik

/-- With the default arguments (600 s deadline, 5 s interval) the loop
polls at most 120 times: deadline expiry when none of those 120 polls is
terminal. -/
theorem wait_default_timeout (check : Nat → TaskDict)
    (h : ∀ i, i < 120 → isTerminal (check i) = false) :
    wait_for_completion check 600 5 five_pos = timeoutDict := by
  apply waitFrom_timeout check 600 5 five_pos 600 0 (by omega)
  intro i _ hlt
  exact h i (by omega)

/-- With the default arguments, the loop returns the dictionary of the
first terminal poll when it occurs among the 120 in-deadline polls. -/
theorem wait_default_first (check : Nat → TaskDict) (k : Nat)
    (hk : k < 120) (hterm : isTerminal (check k) = true)
    (hbefore : ∀ i, i < k → isTerminal (check i) = false) :
    wait_for_completion check 600 5 five_pos = check k := by
  apply waitFrom_first check 600 5 five_pos k 0 k (by omega) (by omega) hterm
  intro i _ hik
  exact hbefore i hik

/-! ## Resolver lemmas

`video_title` is assigned only at line 204, after the whole of step 5, so
step 5 always runs with `vt = none` (unbound).  Both `return` statements
inside the click loop read `video_title`, so both raise
`UnboundLocalError`, and the handlers of lines 191 and 196 swallow it:
step 5 can never produce an early return. -/

/-- With `video_title` unbound, the `try` body of one button iteration
either raises or yields break/continue — it can never reach a `return`
(both `return` statements read the unbound `video_title`). -/
theorem btnTry_none_vt (cur : String) (du : Option String) (c : Click) :
    ∀ r, (btnTry cur none du c).2 ≠ Except.ok (BtnCtl.ret r) := by
  intro r
  unfold btnTry
  repeat' split
  all_goals simp_all
  all_goals repeat' split
  all_goals simp_all

/-- With `video_title` unbound, one button iteration can only continue or
break — never return. -/
theorem btnStep_none_vt (cur : String) (du : Option String) (c : Click) :
    (btnStep cur none du c).2 = BtnCtl.brk ∨ (btnStep cur none du c).2 = BtnCtl.cont := by
  unfold btnStep
  rcases h : btnTry cur none du c with ⟨du2, res⟩
  cases res with
  | error e => simp
  | ok ctl =>
    cases ctl with
    | ret r =>
      have := btnTry_none_vt cur du c r
      rw [h] at this
      simp at this
    | brk => simp
    | cont => simp

/-- With `video_title` unbound, the button loop never produces an early
return. -/
theorem btnLoop_none_vt (cur : String) :
    ∀ (cs : List Click) (du : Option String), (btnLoop cur none du cs).2 = none := by
  intro cs
  induction cs with
  | nil => intro du; rfl
  | cons c cs ih =>
    intro du
    unfold btnLoop
    rcases h : btnStep cur none du c with ⟨du2, ctl⟩
    rcases btnStep_none_vt cur du c with h2 | h2 <;> rw [h] at h2 <;>
      subst h2 <;> simp [ih]

/-- With `video_title` unbound, one selector strategy can only stop the
selector loop or move to the next strategy. -/
theorem selStep_none_vt (cur : String) (du : Option String) (g : List Click) :
    (selStep cur none du g).2 = SelCtl.stop ∨ (selStep cur none du g).2 = SelCtl.next := by
  unfold selStep selTry
  have hb := btnLoop_none_vt cur (g.take 5) du
  rcases h : btnLoop cur none du (g.take 5) with ⟨du2, ret⟩
  rw [h] at hb
  simp only at hb
  subst hb
  cases du2 with
  | none => simp
  | some s => by_cases hs : s = "" <;> simp [hs]

/-- Step 5 never produces an early return: the short-circuit of lines
181 and 189 is dead code. -/
theorem step5_none_vt (cur : String) :
    ∀ (gs : List (List Click)) (du : Option String),
      (step5 cur none du gs).2 = none := by
  intro gs
  induction gs with
  | nil => intro du; rfl
  | cons g gs ih =>
    intro du
    unfold step5
    rcases h : selStep cur none du g with ⟨du2, ctl⟩
    rcases selStep_none_vt cur du g with h2 | h2 <;> rw [h] at h2 <;>
      subst h2 <;> simp [ih]

/-- Normal form of `get_download_url` once the browser started and the
input field was found: the result is decided by steps 6, 7 and 8 alone
(step 5 cannot return). -/
theorem get_download_url_eq (env : ResolveEnv)
    (h1 : env.launchOk = true) (h2 : env.inputFound = true) :
    get_download_url env =
      match scanElems env.elems with
      | some u => (some u, none, some (inferFormat u))
      | none =>
        match scanSource env.sourceMatches with
        | some u => (some u, none, some (inferFormat u))
        | none =>
          match env.finalUrl with
          | some cu =>
            if cu ≠ y2downBase && !strContains cu "y2down.cc/en" &&
               anyExtIn cu step8Exts then
              (some cu, none, some "mp4")
            else (none, none, none)
          | none => (none, none, none) := by
  unfold get_download_url
  rcases h5 : step5 env.currentUrl none none env.clicks with ⟨du, ret⟩
  have hr := step5_none_vt env.currentUrl env.clicks none
  rw [h5] at hr
  simp only at hr
  subst hr
  simp [h1, h2]

/-- A URL containing `.mp4` (case-insensitively) is classified `mp4` by
the format chain, whatever else it contains. -/
theorem inferFormat_mp4 (u : String) (h : strContains (pyLower u) ".mp4" = true) :
    inferFormat u = "mp4" := by
  simp [inferFormat, h]

/-- A URL containing none of the five recognized extensions keeps the
default format `mp4`. -/
theorem inferFormat_default (u : String) (h : anyExtIn u clickExts = false) :
    inferFormat u = "mp4" := by
  simp only [anyExtIn, clickExts, List.any_cons, List.any_nil,
    Bool.or_eq_false_iff] at h
  obtain ⟨h1, h2, h3, h4, h5, -⟩ := h
  simp [inferFormat, h1, h2, h3, h4, h5]

/-! ## Status-set helpers -/

/-- Membership in the completed-synonym list, explicitly. -/
theorem completed_contains_cases {s : String}
    (h : completedSet.contains s = true) :
    s = "completed" ∨ s = "done" ∨ s = "success" := by
  simp [completedSet] at h
  tauto

/-- A dictionary whose lowercased status is in the failed set cannot pass
the case-sensitive completed gate of lines 210/286. -/
theorem statusInCompleted_false_of_failed (d : TaskDict)
    (h : failedSet.contains (lowerStatus d) = true) :
    statusInCompleted d = false := by
  unfold statusInCompleted
  cases hs : d.status with
  | none => rfl
  | some s =>
    cases hb : completedSet.contains s with
    | false => exact hb
    | true =>
      exfalso
      unfold lowerStatus at h
      rw [hs] at h
      simp only [Option.getD_some] at h
      rcases completed_contains_cases hb with rfl | rfl | rfl <;>
        exact absurd h (by decide)

/-! ## `download_stems` shape lemmas -/

/-- The stems loop only ever appends entries of the form
`(name, output_dir/name.wav)`. -/
theorem stems_foldl_shape (dl : String → Bool) (od : String) :
    ∀ (l : List (String × StemInfo)) (acc : List (String × String) × List String),
      (∀ p ∈ acc.1, p.2 = od ++ "/" ++ p.1 ++ ".wav") →
      ∀ p ∈ (l.foldl (stemsStep dl od) acc).1, p.2 = od ++ "/" ++ p.1 ++ ".wav" := by
  intro l
  induction l with
  | nil => intro acc h; exact h
  | cons x xs ih =>
    intro acc h
    simp only [List.foldl_cons]
    apply ih
    unfold stemsStep
    cases hx : stemUrl x.2 with
    | none => exact h
    | some url =>
      intro p hp
      simp only at hp
      rcases List.mem_append.mp hp with h1 | h1
      · exact h p h1
      · rw [List.mem_singleton.mp h1]

/-- The `download_urls` fallback loop likewise only appends entries of
the form `(name, output_dir/name.wav)`. -/
theorem urls_foldl_shape (dl : String → Bool) (od : String) :
    ∀ (l : List (String × String)) (acc : List (String × String) × List String),
      (∀ p ∈ acc.1, p.2 = od ++ "/" ++ p.1 ++ ".wav") →
      ∀ p ∈ (l.foldl (urlsStep dl od) acc).1, p.2 = od ++ "/" ++ p.1 ++ ".wav" := by
  intro l
  induction l with
  | nil => intro acc h; exact h
  | cons x xs ih =>
    intro acc h
    simp only [List.foldl_cons]
    apply ih
    unfold urlsStep
    intro p hp
    simp only at hp
    rcases List.mem_append.mp hp with h1 | h1
    · exact h p h1
    · rw [List.mem_singleton.mp h1]

/-! ## Claim theorems — stem-separation client -/

/-- Claim C7: `wait_for_completion`, at its default arguments, polls the
task status every 5 seconds for up to 600 seconds (so at most 120 polls
fall inside the deadline); a lowercased status in
`{completed, done, success}` or `{failed, error}` terminates the loop
with that poll's dictionary (first such poll wins, any other status
continues polling), and exceeding the deadline returns the distinguished
dictionary with status `"timeout"` instead of raising. -/
theorem wait_for_completion_spec (check : Nat → TaskDict) :
    ((∀ i, i < 120 → isTerminal (check i) = false) →
      wait_for_completion check 600 5 five_pos = timeoutDict) ∧
    (∀ k, k < 120 → isTerminal (check k) = true →
      (∀ i, i < k → isTerminal (check i) = false) →
      wait_for_completion check 600 5 five_pos = check k) :=
  ⟨wait_default_timeout check,
   fun k hk ht hb => wait_default_first check k hk ht hb⟩

/-- A status sequence that never leaves `Processing` (also exercising the
case-insensitive match on a capitalised status). -/
def pendingChecks : Nat → TaskDict := fun _ =>
  { status := some "Processing", message := none }

/-- A status sequence that reports `DONE` (uppercase) on the fourth poll. -/
def doneAt3Checks : Nat → TaskDict := fun i =>
  if i = 3 then { status := some "DONE", message := none }
  else { status := some "pending", message := none }

/-- Witness for C7: a never-completing task times out after the deadline,
and a task whose fourth poll reports `DONE` returns that poll's
dictionary. -/
theorem wait_for_completion_spec_w :
    wait_for_completion pendingChecks 600 5 five_pos = timeoutDict ∧
    wait_for_completion doneAt3Checks 600 5 five_pos = doneAt3Checks 3 :=
  ⟨(wait_for_completion_spec pendingChecks).1 (by decide),
   (wait_for_completion_spec doneAt3Checks).2 3 (by decide) (by decide) (by decide)⟩

/-- Claim C10: a single failed status request makes `check_task_status`
return `{'status': 'error', ...}`, which the poll loop matches against
the failed synonym set and returns immediately — the transient failure
is not retried. -/
theorem poll_error_terminates (polls : Nat → Except String TaskDict)
    (e : String) (k : Nat) (hk : k < 120) (hke : polls k = Except.error e)
    (hbefore : ∀ i, i < k → isTerminal (check_task_status true (polls i)) = false) :
    wait_for_completion (fun i => check_task_status true (polls i)) 600 5 five_pos
      = { status := some "error", message := some e } := by
  have hck : check_task_status true (polls k)
      = { status := some "error", message := some e } := by
    rw [hke]
    rfl
  have hterm : isTerminal (check_task_status true (polls k)) = true := by
    rw [hck]
    show (completedSet.contains (pyLower "error")
      || failedSet.contains (pyLower "error")) = true
    decide
  have hw := wait_default_first (fun i => check_task_status true (polls i))
    k hk hterm hbefore
  rw [hw]
  exact hck

/-- A poll sequence whose third status request fails at the network
level; the earlier polls are non-terminal. -/
def flakyPolls : Nat → Except String TaskDict := fun i =>
  if i = 2 then Except.error "Connection refused"
  else Except.ok { status := some "processing", message := none }

/-- Witness for C10: the loop returns the synthesized error dictionary at
the third poll instead of polling on until the deadline. -/
theorem poll_error_terminates_w :
    wait_for_completion (fun i => check_task_status true (flakyPolls i)) 600 5 five_pos
      = { status := some "error", message := some "Connection refused" } :=
  poll_error_terminates flakyPolls "Connection refused" 2
    (by decide) (by rfl) (by decide)

/-- Claim C1: `separate_audio` signals failure — per the specification,
`SeparationError` is realised as the empty stem mapping returned to the
caller — on each of the four failure modes: auth failure (no token and
`authenticate()` fails), upload failure, remote task failure, and poll
timeout. -/
theorem separate_audio_failure_modes (tokenOk : Bool)
    (uploadResp : Except String UploadResp) (check : Nat → TaskDict)
    (finalInfo : TaskDict) (dl : String → Bool) (output_dir : String) :
    (tokenOk = false →
      separate_audio tokenOk uploadResp check finalInfo dl output_dir = []) ∧
    (∀ e, uploadResp = Except.error e →
      separate_audio tokenOk uploadResp check finalInfo dl output_dir = []) ∧
    (∀ k, k < 120 → failedSet.contains (lowerStatus (check k)) = true →
      (∀ i, i < k → isTerminal (check i) = false) →
      separate_audio tokenOk uploadResp check finalInfo dl output_dir = []) ∧
    ((∀ i, i < 120 → isTerminal (check i) = false) →
      separate_audio tokenOk uploadResp check finalInfo dl output_dir = []) := by
  refine ⟨?_, ?_, ?_, ?_⟩
  · intro h
    subst h
    simp [separate_audio, upload_audio]
  · intro e he
    subst he
    cases tokenOk <;> simp [separate_audio, upload_audio]
  · intro k hk hfail hbefore
    have hterm : isTerminal (check k) = true := by
      unfold isTerminal
      rw [hfail]
      simp
    have hw := wait_default_first check k hk hterm hbefore
    have hst := statusInCompleted_false_of_failed (check k) hfail
    cases hu : upload_audio tokenOk uploadResp with
    | none => simp [separate_audio, hu]
    | some tid =>
      simp [separate_audio, hu, wait_for_completion] at hw ⊢
      rw [hw, hst]
      simp
  · intro hall
    have hw := wait_default_timeout check hall
    cases hu : upload_audio tokenOk uploadResp with
    | none => simp [separate_audio, hu]
    | some tid =>
      have hst : statusInCompleted timeoutDict = false := by decide
      simp [separate_audio, hu, wait_for_completion] at hw ⊢
      rw [hw, hst]
      simp

/-- Witness for C1 (timeout mode): with a successful upload but a task
that never leaves `processing`, `separate_audio` returns the empty
mapping. -/
theorem separate_audio_failure_modes_w :
    separate_audio true (Except.ok { task_id := some "task-1", id := none })
      (fun _ => { status := some "processing", message := none })
      { status := none, message := none } (fun _ => true) "/tmp/stems" = [] :=
  (separate_audio_failure_modes true
    (Except.ok { task_id := some "task-1", id := none })
    (fun _ => { status := some "processing", message := none })
    { status := none, message := none } (fun _ => true) "/tmp/stems").2.2.2
    (by decide)

/-! ## Claim C2 -/

/-- A completed task whose single stem (`vocals`) carries a download URL
as a plain string. -/
def oneStemTask : TaskDict :=
  { status := some "completed", message := none,
    stems := [("vocals", StemInfo.str "https://api.audioshake.ai/stems/vocals.wav")] }

/-- Counterexample to C2: when the download of the stem's URL fails
(`dl` is constantly false, e.g. the GET returns a non-2xx status), no
file is written, yet `download_stems` still returns the mapping entry
`vocals -> /out/vocals.wav` — the absent stem is NOT omitted. -/
theorem download_stems_omits_claim_false :
    download_stems true (fun _ => false) oneStemTask "/out"
      = ([("vocals", "/out/vocals.wav")], []) := by
  rfl

/-- Claim C2, amended: every entry of the mapping returned by
`download_stems` names the target path `{output_dir}/{stem_name}.wav`,
but the entry is recorded whether or not the download succeeded
(`_download_file`'s boolean result is ignored), so the named file may
not have been written. -/
theorem download_stems_entry_paths (tokenOk : Bool) (dl : String → Bool)
    (task_info : TaskDict) (output_dir : String) :
    ∀ p ∈ (download_stems tokenOk dl task_info output_dir).1,
      p.2 = output_dir ++ "/" ++ p.1 ++ ".wav" := by
  intro p hp
  unfold download_stems at hp
  split at hp
  · simp at hp
  · split at hp
    · simp at hp
    · simp only at hp
      split at hp
      · exact urls_foldl_shape dl output_dir task_info.download_urls _
          (stems_foldl_shape dl output_dir task_info.stems ([], [])
            (by intro q hq; simp at hq)) p hp
      · exact stems_foldl_shape dl output_dir task_info.stems ([], [])
          (by intro q hq; simp at hq) p hp

/-- Witness for the amended C2: on a successful run the single returned
entry indeed has path `/out/vocals.wav`. -/
theorem download_stems_entry_paths_w :
    ("vocals", "/out/vocals.wav").2 = "/out" ++ "/" ++ ("vocals", "/out/vocals.wav").1 ++ ".wav" :=
  download_stems_entry_paths true (fun _ => true) oneStemTask "/out"
    ("vocals", "/out/vocals.wav") (by decide)

/-! ## Claim theorems — link resolver -/

/-- If the browser cannot be started, the resolver returns the all-null
triple (line 85 / line 339). -/
theorem gdu_launch_false (env : ResolveEnv) (h : env.launchOk = false) :
    get_download_url env = (none, none, none) := by
  simp [get_download_url, h]

/-- If the URL input field is never found, the resolver returns the
all-null triple (line 112). -/
theorem gdu_input_false (env : ResolveEnv) (h : env.inputFound = false) :
    get_download_url env = (none, none, none) := by
  cases hl : env.launchOk <;> simp [get_download_url, h, hl]

/-- Claim C9: on every input and every execution path the title
component of the returned triple is `None` — `video_title` is only ever
assigned `None` (line 204), and the step-5 returns that read it earlier
raise `UnboundLocalError` and are swallowed. -/
theorem resolver_title_always_none (env : ResolveEnv) :
    (get_download_url env).2.1 = none := by
  cases hl : env.launchOk with
  | false => rw [gdu_launch_false env hl]
  | true =>
    cases hi : env.inputFound with
    | false => rw [gdu_input_false env hi]
    | true =>
      rw [get_download_url_eq env hl hi]
      rcases h6 : scanElems env.elems with _ | u6
      · rcases h7 : scanSource env.sourceMatches with _ | u7
        · rcases h8 : env.finalUrl with _ | cu
          · simp
          · simp only
            split <;> rfl
        · simp
      · simp

/-- Claim C4: a result triple with a non-null `download_url` always has
a non-null format, and when the URL contains none of the five recognized
extensions the format is the default `"mp4"`. -/
theorem url_nonnull_format_nonnull (env : ResolveEnv) :
    ((get_download_url env).1 ≠ none → (get_download_url env).2.2 ≠ none) ∧
    (∀ u, (get_download_url env).1 = some u → anyExtIn u clickExts = false →
      (get_download_url env).2.2 = some "mp4") := by
  cases hl : env.launchOk with
  | false =>
    rw [gdu_launch_false env hl]
    exact ⟨fun h => absurd rfl h, fun u hu => by simp at hu⟩
  | true =>
    cases hi : env.inputFound with
    | false =>
      rw [gdu_input_false env hi]
      exact ⟨fun h => absurd rfl h, fun u hu => by simp at hu⟩
    | true =>
      rw [get_download_url_eq env hl hi]
      rcases h6 : scanElems env.elems with _ | u6
      · rcases h7 : scanSource env.sourceMatches with _ | u7
        · rcases h8 : env.finalUrl with _ | cu
          · exact ⟨fun h => absurd rfl h, fun u hu => by simp at hu⟩
          · simp only
            split
            · exact ⟨fun _ => by simp, fun u _ _ => rfl⟩
            · exact ⟨fun h => absurd rfl h, fun u hu => by simp at hu⟩
        · dsimp only
          refine ⟨fun _ => by simp, fun u hu hext => ?_⟩
          obtain rfl : u7 = u := by injection hu
          rw [inferFormat_default u7 hext]
      · dsimp only
        refine ⟨fun _ => by simp, fun u hu hext => ?_⟩
        obtain rfl : u6 = u := by injection hu
        rw [inferFormat_default u6 hext]

/-! ## Claim C3 -/

/-- A clickable candidate whose click navigates the browser to a direct
`.wav` media URL. -/
def wavClick : Click :=
  { enabledDisplayed := true,
    newUrl := "https://cdn.example.com/files/track-12345678.wav",
    directUrl := none }

/-- An environment in which step 5 clicks exactly that candidate and all
later strategies find nothing. -/
def clickEnv : ResolveEnv :=
  { launchOk := true, inputFound := true,
    currentUrl := "https://y2down.cc/enV8/youtube-wav",
    clicks := [[wavClick]], elems := [], sourceMatches := [],
    finalUrl := none }

/-- Claim C3 is violated by the code: the click does navigate to a URL
with a known media extension, yet `get_download_url` does not return it —
the `return new_url, video_title, format_ext` of line 181 reads
`video_title` before its (line 204) assignment, raising
`UnboundLocalError`, which the `except` of line 191 swallows; the
function falls through to the later strategies and here ends with the
all-null triple. -/
theorem click_redirect_no_shortcircuit :
    get_download_url clickEnv = (none, none, none) ∧
    wavClick.newUrl ≠ clickEnv.currentUrl ∧
    anyExtIn wavClick.newUrl clickExts = true := by
  refine ⟨by rfl, by decide, by decide⟩

/-! ## Claim C5 -/

/-- A long direct `.wav` URL used as the browser's final current URL. -/
def wavFinalUrl : String :=
  "https://storage.example.com/media/track-0123456789-copy.wav"

/-- An environment in which only the step-8 current-URL fallback
resolves. -/
def wavFinalEnv : ResolveEnv :=
  { launchOk := true, inputFound := true, currentUrl := y2downBase,
    clicks := [], elems := [], sourceMatches := [],
    finalUrl := some wavFinalUrl }

/-- Counterexample to C5: the step-8 path returns a `.wav` URL with
format `"mp4"` — the returned URL is not matched against the extension
priority list on that path (priority matching would give `"wav"`). -/
theorem format_priority_claim_false :
    get_download_url wavFinalEnv = (some wavFinalUrl, none, some "mp4") ∧
    inferFormat wavFinalUrl = "wav" := by
  refine ⟨by rfl, by decide⟩

/-- Claim C5, amended: on the element-scan (step 6) and page-source
(step 7) return paths the format is the URL matched in the priority
order `.mp4`, `.mp3`, `.wav`, `.m4a`, `.webm` (default `mp4`), so a URL
containing both `.mp4` and `.wav` resolves to `mp4`; the step-8
current-URL fallback instead always returns the default `"mp4"` without
matching the returned URL. -/
theorem format_priority_amended (env : ResolveEnv) :
    (∀ u, strContains (pyLower u) ".mp4" = true → inferFormat u = "mp4") ∧
    (∀ u, env.launchOk = true → env.inputFound = true →
      scanElems env.elems = some u →
      get_download_url env = (some u, none, some (inferFormat u))) ∧
    (∀ u, env.launchOk = true → env.inputFound = true →
      scanElems env.elems = none → scanSource env.sourceMatches = some u →
      get_download_url env = (some u, none, some (inferFormat u))) ∧
    (∀ cu, env.launchOk = true → env.inputFound = true →
      scanElems env.elems = none → scanSource env.sourceMatches = none →
      env.finalUrl = some cu → (get_download_url env).1 = some cu →
      (get_download_url env).2.2 = some "mp4") := by
  refine ⟨fun u h => inferFormat_mp4 u h, ?_, ?_, ?_⟩
  · intro u hl hi h6
    rw [get_download_url_eq env hl hi, h6]
  · intro u hl hi h6 h7
    rw [get_download_url_eq env hl hi, h6, h7]
  · intro cu hl hi h6 h7 h8 hu
    rw [get_download_url_eq env hl hi, h6, h7, h8] at hu ⊢
    dsimp only at hu ⊢
    split
    · rfl
    · rw [if_neg (by assumption)] at hu
      exact absurd hu (by simp)

/-- A candidate element whose URL contains both `.mp4` and `.wav`. -/
def bothExtEnv : ResolveEnv :=
  { launchOk := true, inputFound := true, currentUrl := y2downBase,
    clicks := [],
    elems := [{ attr := some "https://cdn.example.com/media/track.mp4.wav-0123456789",
                extracted := none }],
    sourceMatches := [], finalUrl := none }

/-- Witness for the amended C5: the element-scan path returns that URL
with format `inferFormat`, which resolves the `.mp4`/`.wav` conflict to
`mp4`. -/
theorem format_priority_amended_w :
    get_download_url bothExtEnv
      = (some "https://cdn.example.com/media/track.mp4.wav-0123456789", none,
         some (inferFormat "https://cdn.example.com/media/track.mp4.wav-0123456789")) ∧
    inferFormat "https://cdn.example.com/media/track.mp4.wav-0123456789" = "mp4" :=
  ⟨(format_priority_amended bothExtEnv).2.1
      "https://cdn.example.com/media/track.mp4.wav-0123456789" rfl rfl (by decide),
   (format_priority_amended bothExtEnv).1
      "https://cdn.example.com/media/track.mp4.wav-0123456789" (by decide)⟩

/-! ## Claim C6 -/

/-- Claim C6: `get_download_url` never raises to its caller (the
embedding is a total function: every internal exception is caught by the
handlers modeled above and by the `except Exception` of line 335); a
null `download_url` comes with an all-null triple, failure to launch the
browser yields the all-null triple, exhaustion of every strategy yields
the all-null triple, and a successful strategy yields a non-null
`download_url`. -/
theorem resolver_failure_is_null_triple (env : ResolveEnv) :
    ((get_download_url env).1 = none → get_download_url env = (none, none, none)) ∧
    (env.launchOk = false → get_download_url env = (none, none, none)) ∧
    (env.launchOk = true → env.inputFound = true → scanElems env.elems = none →
      scanSource env.sourceMatches = none → env.finalUrl = none →
      get_download_url env = (none, none, none)) ∧
    (∀ u, env.launchOk = true → env.inputFound = true →
      scanElems env.elems = some u → (get_download_url env).1 = some u) := by
  refine ⟨?_, fun h => gdu_launch_false env h, ?_, ?_⟩
  · intro h
    cases hl : env.launchOk with
    | false => exact gdu_launch_false env hl
    | true =>
      cases hi : env.inputFound with
      | false => exact gdu_input_false env hi
      | true =>
        rw [get_download_url_eq env hl hi] at h ⊢
        rcases h6 : scanElems env.elems with _ | u6
        · rw [h6] at h
          rcases h7 : scanSource env.sourceMatches with _ | u7
          · rw [h7] at h
            rcases h8 : env.finalUrl with _ | cu
            · rfl
            · rw [h8] at h
              dsimp only at h ⊢
              split at h
              · exact absurd h (by simp)
              · rw [if_neg (by assumption)]
          · rw [h7] at h
            simp at h
        · rw [h6] at h
          simp at h
  · intro hl hi h6 h7 h8
    rw [get_download_url_eq env hl hi, h6, h7, h8]
  · intro u hl hi h6
    rw [get_download_url_eq env hl hi, h6]

/-- An environment in which the browser fails to start. -/
def noBrowserEnv : ResolveEnv :=
  { launchOk := false, inputFound := false, currentUrl := "",
    clicks := [], elems := [], sourceMatches := [], finalUrl := none }

/-- Witness for C6: browser-launch failure yields the all-null triple. -/
theorem resolver_failure_is_null_triple_w :
    get_download_url noBrowserEnv = (none, none, none) :=
  (resolver_failure_is_null_triple noBrowserEnv).2.1 rfl

/-- An element whose href has no recognized extension but passes the
`download`-plus-`api`/`cdn` heuristic of the validity filter. -/
def apiUrlEnv : ResolveEnv :=
  { launchOk := true, inputFound := true, currentUrl := y2downBase,
    clicks := [],
    elems := [{ attr := some "https://cdn.example.com/api/download/file-0123456789012345678901234567890",
                extracted := none }],
    sourceMatches := [], finalUrl := none }

/-- Witness for C4: a resolved URL without a recognizable extension gets
the non-null default format `"mp4"`. -/
theorem url_nonnull_format_nonnull_w :
    (get_download_url apiUrlEnv).2.2 = some "mp4" ∧
    (get_download_url apiUrlEnv).2.2 ≠ none :=
  ⟨(url_nonnull_format_nonnull apiUrlEnv).2
      "https://cdn.example.com/api/download/file-0123456789012345678901234567890"
      (by decide) (by decide),
   (url_nonnull_format_nonnull apiUrlEnv).1 (by decide)⟩

/-! ## Claim C8 -/

/-- Counterexample to C8: a non-2xx response that is not a 4xx/5xx —
here a `300 Multiple Choices` with a body, which `requests` returns
as-is (it only follows redirects carrying a `Location` header) — does
not raise: `raise_for_status` only fires on status codes in
`[400, 600)`, and the generator yields the body chunk. -/
theorem stream_non2xx_claim_false :
    stream_download (some { statusCode := 300, chunks := [[72, 105]] })
      = ([[72, 105]], none) ∧
    ¬(200 ≤ 300 ∧ 300 ≤ 299) := by
  refine ⟨by rfl, by decide⟩

/-- Claim C8, amended: when the GET's (redirect-resolved) response has a
4xx or 5xx status — e.g. 404 — the generator raises before yielding any
chunk: the produced chunk sequence is empty and the error is surfaced. -/
theorem stream_fails_fast (r : HttpResp)
    (h4 : 400 ≤ r.statusCode) (h6 : r.statusCode < 600) :
    stream_download (some r) = ([], some StreamErr.httpError) := by
  have hb : raisesForStatus r.statusCode = true := by
    unfold raisesForStatus
    simp [h4, h6]
  unfold stream_download
  dsimp only
  rw [if_pos hb]

/-- Witness for the amended C8: a 404 with a pending body chunk yields no
chunks and the HTTP error. -/
theorem stream_fails_fast_w :
    stream_download (some { statusCode := 404, chunks := [[0]] })
      = ([], some StreamErr.httpError) :=
  stream_fails_fast { statusCode := 404, chunks := [[0]] } (by decide) (by decide)
